import Mathlib

/-!
Verification of the Deep Research Streamlit app (src/app.py) against its
natural-language specification.  The Python source is shallowly embedded:
provider response objects become inductive data, Python exceptions become
`Except` errors, Python `None` becomes `Option.none`, and Python string
truthiness is made explicit.
-/

set_option maxRecDepth 4000

/-- One element of a provider output item's `content` list.  Python objects
may or may not carry a `text` attribute; an absent attribute (whose access
raises `AttributeError`) is modelled as `none`. -/
structure ContentItem where
  text : Option String
deriving DecidableEq

/-- One element of a provider response's `output` list.  `hasattr(o, 'id')`
and `hasattr(o, 'content')` are modelled as `Option.isSome` of the
corresponding field. -/
structure OutputItem where
  id : Option String
  content : Option (List ContentItem)
deriving DecidableEq

/-- The dictionary returned by `run_search` (src/app.py lines 86-97):
keys `query`, `resp_id` (may be Python `None`) and `research_output`. -/
structure SearchRes where
  query : String
  resp_id : Option String
  research_output : String
deriving DecidableEq

/-- Python exceptions that the embedded fragments can raise. -/
inductive PyErr where
  | indexError
  | attributeError
  | jsonDecodeError
  | keyError
deriving DecidableEq

/-- Rendering of one content item inside Python's f-string interpolation of
the raw output list (the exact provider repr is opaque; only the prefix of
the diagnostic message matters to the spec). -/
def reprContentItem (c : ContentItem) : String :=
  match c.text with
  | some t => "Content(text=" ++ t ++ ")"
  | none => "Content()"

/-- Rendering of one output item for the diagnostic message. -/
def reprOutputItem (o : OutputItem) : String :=
  let idPart := match o.id with
    | some i => "id=" ++ i
    | none => "id?"
  let contentPart := match o.content with
    | some cs => "content=[" ++ String.intercalate (", ") (cs.map reprContentItem) ++ "]"
    | none => "content?"
  "Output(" ++ idPart ++ ", " ++ contentPart ++ ")"

/-- Rendering of the whole `web_search.output` list, standing for the
f-string interpolation `{web_search.output}` on line 96. -/
def reprOutput (output : List OutputItem) : String :=
  "[" ++ String.intercalate (", ") (output.map reprOutputItem) ++ "]"

/-- The input string handed to the Gateway by `run_search`
(src/app.py line 80): `f"seach: {q}"` (note the source's spelling). -/
def search_input (q : String) : String := "seach: " ++ q

/-- `run_search` (src/app.py lines 76-97) restricted to its result
extraction: given the query and the provider response's `output` list it
either returns the result dictionary or raises.  The guard on line 85 is
`len(output) > 1 and hasattr(output[1], 'id') and hasattr(output[1],
'content')`; on success the code reads `output[1].content[0].text`
unguarded, so an empty `content` list raises `IndexError` and a content
item without `text` raises `AttributeError`. -/
def run_search (q : String) (output : List OutputItem) : Except PyErr SearchRes :=
  match output[1]? with
  | some item =>
    match item.id, item.content with
    | some rid, some cs =>
      (match cs[0]? with
       | some c =>
         (match c.text with
          | some t => Except.ok { query := q, resp_id := some rid, research_output := t }
          | none => Except.error PyErr.attributeError)
       | none => Except.error PyErr.indexError)
    | _, _ =>
      Except.ok { query := q, resp_id := none,
                  research_output := "Error: Unexpected response format: " ++ reprOutput output }
  | none =>
    Except.ok { query := q, resp_id := none,
                research_output := "Error: Unexpected response format: " ++ reprOutput output }

example :
    run_search ("a") ([⟨none, none⟩, ⟨some ("r"), some [⟨some ("t")⟩]⟩]) =
      Except.ok ⟨"a", some ("r"), "t"⟩ := by rfl

example :
    run_search ("a") ([⟨none, none⟩, ⟨some ("r"), some []⟩]) =
      Except.error PyErr.indexError := by rfl

example :
    run_search ("a") ([]) =
      Except.ok ⟨"a", none, "Error: Unexpected response format: []"⟩ := by rfl

/-- C1: `run_search` returns the well-formed dictionary when
`output[1].id` and `output[1].content[0].text` are all present; it returns
the diagnostic dictionary (text prefixed by "Error: Unexpected response
format: ") whenever the guard of line 85 fails (short output, or
`output[1]` lacking `id` or `content`); and it raises only when the guard
passes yet `output[1].content[0].text` is unreachable (empty content list,
or first content item without `text`). -/
theorem c1_run_search_amended (q : String) (output : List OutputItem) :
    (∀ item rid cs c t, output[1]? = some item → item.id = some rid →
       item.content = some cs → cs[0]? = some c → c.text = some t →
       run_search q output = Except.ok ⟨q, some rid, t⟩) ∧
    ((output[1]? = none ∨
        ∃ item, output[1]? = some item ∧ (item.id = none ∨ item.content = none)) →
       ∃ rest, run_search q output =
         Except.ok ⟨q, none, "Error: Unexpected response format: " ++ rest⟩) ∧
    (∀ err, run_search q output = Except.error err →
       ∃ item rid cs, output[1]? = some item ∧ item.id = some rid ∧
         item.content = some cs ∧
         (cs[0]? = none ∨ ∃ c, cs[0]? = some c ∧ c.text = none)) := by
  refine ⟨?_, ?_, ?_⟩
  · intro item rid cs c t h1 h2 h3 h4 h5
    simp [run_search, h1, h2, h3, h4, h5]
  · intro h
    refine ⟨reprOutput output, ?_⟩
    rcases h with h | ⟨item, h1, h2 | h2⟩
    · simp [run_search, h]
    · simp [run_search, h1, h2]
    · cases hid : item.id <;> simp [run_search, h1, h2, hid]
  · intro err h
    cases hg : output[1]? with
    | none => rw [run_search, hg] at h; exact absurd h (by simp)
    | some item =>
      cases hid : item.id with
      | none => rw [run_search, hg] at h; simp [hid] at h
      | some rid =>
        cases hc : item.content with
        | none => rw [run_search, hg] at h; simp [hid, hc] at h
        | some cs =>
          cases h0 : cs[0]? with
          | none => exact ⟨item, rid, cs, rfl, hid, hc, Or.inl h0⟩
          | some c =>
            cases ht : c.text with
            | none => exact ⟨item, rid, cs, rfl, hid, hc, Or.inr ⟨c, h0, ht⟩⟩
            | some t => rw [run_search, hg] at h; simp [hid, hc, h0, ht] at h

/-- C1 counterexample to the claim as stated: a response whose second
output item carries `id` and `content` attributes but an empty content
list passes the guard of line 85 and then raises `IndexError` at
`content[0]` — `run_search` does not return an error dictionary and is not
exception-free for every shape. -/
theorem c1_counterexample :
    run_search ("q") ([⟨none, none⟩, ⟨some ("rid"), some []⟩]) =
      Except.error PyErr.indexError := by rfl

/-- C1 witness: the amended theorem applied to a concrete well-formed
response. -/
theorem c1_run_search_amended_witness :
    run_search ("q") ([⟨none, none⟩, ⟨some ("r1"), some [⟨some ("body")⟩]⟩]) =
      Except.ok ⟨"q", some ("r1"), "body"⟩ :=
  (c1_run_search_amended ("q") ([⟨none, none⟩, ⟨some ("r1"), some [⟨some ("body")⟩]⟩])).1
    ⟨some ("r1"), some [⟨some ("body")⟩]⟩ ("r1") ([⟨some ("body")⟩]) ⟨some ("body")⟩ ("body")
    rfl rfl rfl rfl rfl

/-- C6: the Gateway input built by `run_search` is `"seach: "` followed by
the query (src/app.py line 80 misspells the intended `"search: "` framing),
so at the concrete query the framing the claim demands does not hold. -/
theorem c6_search_input_typo :
    search_input ("EV sales statistics 2024") = "seach: EV sales statistics 2024" ∧
    search_input ("EV sales statistics 2024") ≠ "search: EV sales statistics 2024" := by
  constructor
  · rfl
  · decide

/-- Python `str.lower()` on the fragment of text the app handles: each
character lowered individually (`Char.toLower`). -/
def pyLower (s : String) : String := ⟨s.data.map Char.toLower⟩

/-- Python's substring operator `pat in s`: some window of `s` of the
pattern's length equals the pattern. -/
def strContains (pat s : String) : Bool :=
  (List.range (s.data.length + 1)).any fun i =>
    ((s.data.drop i).take pat.data.length) == pat.data

/-- `evaluate` (src/app.py lines 100-111) restricted to its decision on the
model's response text (line 111): `"yes" in review.output[0].content[0].text.lower()`. -/
def evaluate (respText : String) : Bool := strContains ("yes") (pyLower respText)

/-- Characterisation of the embedded Python `in` operator: containment
holds exactly when the text splits around the pattern. -/
theorem strContains_iff (pat s : String) :
    strContains pat s = true ↔ ∃ a b, s.data = a ++ pat.data ++ b := by
  unfold strContains
  rw [List.any_eq_true]
  constructor
  · rintro ⟨i, _, hp⟩
    rw [beq_iff_eq] at hp
    refine ⟨s.data.take i, (s.data.drop i).drop pat.data.length, ?_⟩
    have h2 := List.take_append_drop pat.data.length (s.data.drop i)
    rw [hp] at h2
    conv_lhs => rw [← List.take_append_drop i s.data, ← h2]
    rw [List.append_assoc]
  · rintro ⟨a, b, h⟩
    refine ⟨a.length, ?_, ?_⟩
    · rw [List.mem_range]
      have hlen : s.data.length = ((a ++ pat.data) ++ b).length := by rw [h]
      rw [List.length_append, List.length_append] at hlen
      omega
    · rw [beq_iff_eq, h, List.append_assoc, List.drop_left, List.take_left]

example : evaluate ("Partially done") = false := by decide

/-- C2: the Coverage Evaluator answers `true` exactly when the substring
"yes" occurs somewhere in the lowercased response text, and on the spec's
concrete examples it answers true, false, false respectively. -/
theorem c2_evaluate_yes_iff (t : String) :
    (evaluate t = true ↔ ∃ a b, (pyLower t).data = a ++ ("yes").data ++ b) ∧
    evaluate ("Yes, fully covered.") = true ∧
    evaluate ("No, missing X") = false ∧
    evaluate ("Partially — needs more") = false := by
  refine ⟨strContains_iff ("yes") (pyLower t), by decide, by decide, by decide⟩

/-- C2 witness: the characterisation applied at a concrete response text
containing an uppercase "YES". -/
theorem c2_evaluate_yes_iff_witness : evaluate ("Answer: YES.") = true :=
  (c2_evaluate_yes_iff ("Answer: YES.")).1.mpr
    ⟨("answer: ").data, (".").data, by decide⟩

/-- Every dictionary `run_search` returns carries the query it was given:
both the success branch (line 87) and the diagnostic branch (line 94) set
`"query": q`. -/
theorem run_search_ok_query (q : String) (out : List OutputItem) (r : SearchRes)
    (h : run_search q out = Except.ok r) : r.query = q := by
  rw [run_search] at h
  repeat' split at h
  all_goals try exact Except.noConfusion h
  all_goals (injection h with h2; rw [← h2])

/-- One search round of the Run Research block (the loops on lines 198-201
and 211-214): `run_search` on each query in order, results appended to the
collected list; an exception at any query aborts the whole round. -/
def runRound (resp : String → List OutputItem) : List String → Except PyErr (List SearchRes)
  | [] => Except.ok []
  | q :: rest =>
    match run_search q (resp q) with
    | Except.ok r =>
      (match runRound resp rest with
       | Except.ok rs => Except.ok (r :: rs)
       | Except.error e => Except.error e)
    | Except.error e => Except.error e

/-- A completed round yields one result per query, in query order. -/
theorem runRound_ok_queries (resp : String → List OutputItem) :
    ∀ qs l, runRound resp qs = Except.ok l → l.map SearchRes.query = qs := by
  intro qs
  induction qs with
  | nil =>
    intro l h
    simp only [runRound] at h
    injection h with h2
    rw [← h2]
    rfl
  | cons q rest ih =>
    intro l h
    simp only [runRound] at h
    cases hr : run_search q (resp q) with
    | error e => rw [hr] at h; exact Except.noConfusion h
    | ok r =>
      rw [hr] at h
      cases hrest : runRound resp rest with
      | error e => rw [hrest] at h; exact Except.noConfusion h
      | ok rs =>
        rw [hrest] at h
        injection h with h2
        rw [← h2]
        simp [run_search_ok_query q (resp q) r hr, ih rs hrest]

/-- The collected-results value of the Run Research block (src/app.py
lines 196-214): the initial round over the planned queries, then — exactly
when the evaluation said the data is not enough — one round over the
expansion queries, appended behind the initial results. -/
def runResearchCollected (resp : String → List OutputItem) (initQs : List String)
    (enough : Bool) (moreQs : List String) : Except PyErr (List SearchRes) :=
  match runRound resp initQs with
  | Except.error e => Except.error e
  | Except.ok collected =>
    if enough then Except.ok collected
    else
      match runRound resp moreQs with
      | Except.error e => Except.error e
      | Except.ok more => Except.ok (collected ++ more)

/-- C3: the collected list is append-only and keeps query order: a
completed initial round has one result per initial query, in order; with
sufficient coverage the pipeline returns exactly those results; with
insufficient coverage it returns the initial results followed by the
expansion results, never interleaved, reordered or deduplicated. -/
theorem c3_collected_append_only (resp : String → List OutputItem)
    (initQs moreQs : List String) :
    (∀ l, runRound resp initQs = Except.ok l →
       l.length = initQs.length ∧ l.map SearchRes.query = initQs) ∧
    (∀ l, runRound resp initQs = Except.ok l →
       runResearchCollected resp initQs true moreQs = Except.ok l) ∧
    (∀ l m, runRound resp initQs = Except.ok l → runRound resp moreQs = Except.ok m →
       runResearchCollected resp initQs false moreQs = Except.ok (l ++ m)) := by
  refine ⟨?_, ?_, ?_⟩
  · intro l h
    have hq := runRound_ok_queries resp initQs l h
    refine ⟨?_, hq⟩
    rw [← hq]
    exact (List.length_map l SearchRes.query).symm
  · intro l h
    simp [runResearchCollected, h]
  · intro l m h1 h2
    simp [runResearchCollected, h1, h2]

/-- A provider that always answers in the well-formed shape, echoing the
query as both response id and text. -/
def echoResp : String → List OutputItem :=
  fun q => [⟨none, none⟩, ⟨some q, some [⟨some q⟩]⟩]

/-- C3 witness: the order theorem applied to a concrete two-query initial
round and a one-query expansion round. -/
theorem c3_collected_append_only_witness :
    runResearchCollected echoResp (["a", "b"]) false (["c"]) =
      Except.ok ([⟨"a", some ("a"), "a"⟩, ⟨"b", some ("b"), "b"⟩] ++
        [⟨"c", some ("c"), "c"⟩]) :=
  (c3_collected_append_only echoResp (["a", "b"]) (["c"])).2.2
    ([⟨"a", some ("a"), "a"⟩, ⟨"b", some ("b"), "b"⟩]) ([⟨"c", some ("c"), "c"⟩]) rfl rfl

/-- Observable step events of the Run Research block (lines 196-217):
one event per `run_search` call, one per `evaluate` call (with its
result), one per `get_more_queries` call, one per `write_report` call. -/
inductive Ev where
  | searchStep (q : String)
  | evalStep (enough : Bool)
  | expandStep
  | reportStep
deriving DecidableEq

/-- Recognises a Coverage Evaluator event. -/
def isEvalEv : Ev → Bool
  | Ev.evalStep _ => true
  | _ => false

/-- Recognises a Query Expansion event. -/
def isExpandEv : Ev → Bool
  | Ev.expandStep => true
  | _ => false

/-- Recognises a Report Writer event. -/
def isReportEv : Ev → Bool
  | Ev.reportStep => true
  | _ => false

/-- Event trace of a Run Research session in which every gateway call
returns (src/app.py lines 196-217): searches over the planned queries,
one evaluation, then — only if it said "not enough" — one expansion call
followed by searches over the expansion queries, and finally the report. -/
def runResearchTrace (initQs : List String) (enough : Bool) (moreQs : List String) :
    List Ev :=
  (initQs.map Ev.searchStep ++ [Ev.evalStep enough] ++
    (if enough then [] else Ev.expandStep :: moreQs.map Ev.searchStep)) ++ [Ev.reportStep]

/-- Search events contribute nothing to a count of non-search events. -/
theorem countP_map_searchStep (p : Ev → Bool) (hp : ∀ q, p (Ev.searchStep q) = false)
    (qs : List String) : (qs.map Ev.searchStep).countP p = 0 := by
  induction qs with
  | nil => rfl
  | cons q rest ih => simp [List.countP_cons, hp, ih]

/-- The last element of a list ending in a singleton. -/
theorem getLast_append_singleton (l : List Ev) (a : Ev) : (l ++ [a]).getLast? = some a := by
  rw [List.getLast?_append_cons]
  rfl

/-- C4: in every completed session the expansion step happens exactly once
when the evaluator answered false and never when it answered true; the
evaluator itself runs exactly once; the report is written exactly once, as
the final step; and no expansion happens before the evaluation. -/
theorem c4_single_expansion (initQs moreQs : List String) (enough : Bool) :
    (runResearchTrace initQs enough moreQs).countP isExpandEv = (if enough then 0 else 1) ∧
    (runResearchTrace initQs enough moreQs).countP isEvalEv = 1 ∧
    (runResearchTrace initQs enough moreQs).countP isReportEv = 1 ∧
    (runResearchTrace initQs enough moreQs).getLast? = some Ev.reportStep ∧
    ((runResearchTrace initQs enough moreQs).takeWhile fun e => !(isEvalEv e)).countP
        isExpandEv = 0 := by
  have hexp := countP_map_searchStep isExpandEv (fun _ => rfl)
  have heva := countP_map_searchStep isEvalEv (fun _ => rfl)
  have hrep := countP_map_searchStep isReportEv (fun _ => rfl)
  refine ⟨?_, ?_, ?_, ?_, ?_⟩
  · cases enough <;>
      simp [runResearchTrace, List.countP_append, List.countP_cons, hexp, isExpandEv]
  · cases enough <;>
      simp [runResearchTrace, List.countP_append, List.countP_cons, heva, isEvalEv]
  · cases enough <;>
      simp [runResearchTrace, List.countP_append, List.countP_cons, hrep, isReportEv]
  · exact getLast_append_singleton _ _
  · have hshape : runResearchTrace initQs enough moreQs =
        initQs.map Ev.searchStep ++ Ev.evalStep enough ::
          ((if enough then [] else Ev.expandStep :: moreQs.map Ev.searchStep) ++
            [Ev.reportStep]) := by
      cases enough <;> simp [runResearchTrace]
    rw [hshape]
    have htake : ∀ (qs : List String) (rest : List Ev) (b : Bool),
        ((qs.map Ev.searchStep ++ Ev.evalStep b :: rest).takeWhile fun e => !(isEvalEv e)) =
          qs.map Ev.searchStep := by
      intro qs rest b
      induction qs with
      | nil => rfl
      | cons q qs ih => simp [List.takeWhile_cons, isEvalEv, ih]
    rw [htake, hexp]

/-- JSON values as Python's `json` module produces them for the fragment
the app exchanges (objects, arrays, strings, integers, booleans, null). -/
inductive JsonV where
  | str (s : String)
  | num (n : Int)
  | bool (b : Bool)
  | null
  | arr (xs : List JsonV)
  | obj (fields : List (String × JsonV))

/-- Opening brace character. -/
def obraceChar : Char := Char.ofNat 123

/-- Closing brace character. -/
def cbraceChar : Char := Char.ofNat 125

/-- JSON insignificant whitespace. -/
def skipWs (cs : List Char) : List Char :=
  cs.dropWhile fun c => c == ' ' || c == '\n' || c == '\t' || c == '\r'

/-- Consume an expected literal tail ("rue", "alse", "ull"). -/
def parseLit (lit cs : List Char) : Option (List Char) :=
  if cs.take lit.length == lit then some (cs.drop lit.length) else none

/-- Body of a JSON string after the opening quote, up to the closing
quote; escape sequences are outside the modelled fragment. -/
def parseStrBody : List Char → Option (List Char × List Char)
  | [] => none
  | c :: rest =>
    if c == '"' then some ([], rest)
    else if c == '\\' then none
    else
      match parseStrBody rest with
      | some (s, r) => some (c :: s, r)
      | none => none

/-- Decimal digits to a natural number. -/
def digitsToNat (ds : List Char) : Nat :=
  ds.foldl (fun acc c => acc * 10 + (c.toNat - 48)) 0

/-- Recursive-descent JSON value parser (fuel-indexed; the fuel bounds the
nesting/element recursion and is always sufficient at `length + 1`).
A partially parsed array or object continues by re-entering the parser on
the re-opened bracket. -/
def parseVal : Nat → List Char → Option (JsonV × List Char)
  | 0, _ => none
  | f + 1, cs0 =>
    match skipWs cs0 with
    | [] => none
    | c :: rest =>
      if c == '"' then
        match parseStrBody rest with
        | some (s, r) => some (JsonV.str (String.mk s), r)
        | none => none
      else if c == 't' then (parseLit (['r', 'u', 'e']) rest).map fun r => (JsonV.bool true, r)
      else if c == 'f' then
        (parseLit (['a', 'l', 's', 'e']) rest).map fun r => (JsonV.bool false, r)
      else if c == 'n' then (parseLit (['u', 'l', 'l']) rest).map fun r => (JsonV.null, r)
      else if c == '[' then
        match skipWs rest with
        | ']' :: cs2 => some (JsonV.arr [], cs2)
        | cs1 =>
          match parseVal f cs1 with
          | some (v, cs2) =>
            (match skipWs cs2 with
             | ',' :: cs3 =>
               (match parseVal f ('[' :: cs3) with
                | some (JsonV.arr vs, cs4) => some (JsonV.arr (v :: vs), cs4)
                | _ => none)
             | ']' :: cs3 => some (JsonV.arr [v], cs3)
             | _ => none)
          | none => none
      else if c == obraceChar then
        match skipWs rest with
        | [] => none
        | d :: cs2 =>
          if d == cbraceChar then some (JsonV.obj [], cs2)
          else if d == '"' then
            match parseStrBody cs2 with
            | some (k, cs3) =>
              (match skipWs cs3 with
               | ':' :: cs4 =>
                 (match parseVal f cs4 with
                  | some (v, cs5) =>
                    (match skipWs cs5 with
                     | ',' :: cs6 =>
                       (match parseVal f (obraceChar :: cs6) with
                        | some (JsonV.obj kvs, cs7) =>
                          some (JsonV.obj ((String.mk k, v) :: kvs), cs7)
                        | _ => none)
                     | e :: cs6 =>
                       if e == cbraceChar then some (JsonV.obj [(String.mk k, v)], cs6)
                       else none
                     | [] => none)
                  | none => none)
               | _ => none)
            | none => none
          else none
      else if c == '-' || c.isDigit then
        let csn := if c == '-' then rest else c :: rest
        let ds := csn.takeWhile Char.isDigit
        let rem := csn.dropWhile Char.isDigit
        if ds.isEmpty then none
        else some (JsonV.num (if c == '-' then -(digitsToNat ds : Int) else (digitsToNat ds : Int)), rem)
      else none

/-- Python's `json.loads` on the modelled fragment: parse one value and
require only whitespace to remain; `none` stands for a raised
`json.JSONDecodeError`. -/
def json_loads (s : String) : Option JsonV :=
  match parseVal (s.data.length + 1) s.data with
  | some (v, rest) => if (skipWs rest).isEmpty then some v else none
  | none => none

example : json_loads ("\x7b\x7d") = some (JsonV.obj []) := by rfl

example : json_loads ("not json") = none := by rfl

example :
    json_loads ("\x7b\"goal\": \"g\", \"queries\": [\"q1\", \"q2\"]\x7d") =
      some (JsonV.obj [("goal", JsonV.str ("g")),
        ("queries", JsonV.arr [JsonV.str ("q1"), JsonV.str ("q2")])]) := by rfl

example : json_loads ("[1, -2, true, null]") =
    some (JsonV.arr [JsonV.num 1, JsonV.num (-2), JsonV.bool true, JsonV.null]) := by rfl

/-- `get_goal_and_queries` (src/app.py lines 59-73) restricted to its
response handling (line 72): `plan = json.loads(text)` and nothing else —
the parsed value is returned as the plan with no schema check, and a parse
failure propagates as an uncaught error. -/
def get_goal_and_queries (respText : String) : Except PyErr JsonV :=
  match json_loads respText with
  | some v => Except.ok v
  | none => Except.error PyErr.jsonDecodeError

/-- Recognises a JSON string. -/
def isStrJson : JsonV → Bool
  | JsonV.str _ => true
  | _ => false

/-- Python `plan[key]` lookup on a parsed JSON value: `none` stands for
the `KeyError`/`TypeError` the subscript would raise. -/
def jsonGet (v : JsonV) (k : String) : Option JsonV :=
  match v with
  | JsonV.obj fields => (fields.find? fun kv => kv.fst == k).map Prod.snd
  | _ => none

/-- Modelled from the spec: the Planning JSON contract — a JSON object
with keys exactly `goal` (a string) and `queries` (an array of strings).
Defined from the spec's words for comparison with what the code returns;
the code itself performs no such check. -/
def specPlanSchema (v : JsonV) : Bool :=
  match v with
  | JsonV.obj fields =>
    (fields.map Prod.fst == ["goal", "queries"]) &&
    (match jsonGet v ("goal") with
     | some (JsonV.str _) => true
     | _ => false) &&
    (match jsonGet v ("queries") with
     | some (JsonV.arr qs) => qs.all isStrJson
     | _ => false)
  | _ => false

/-- The caller's first use of the plan (src/app.py line 188):
`goal = plan["goal"]`, which raises when the key is absent. -/
def planGoalAccess (plan : JsonV) : Except PyErr JsonV :=
  match jsonGet plan ("goal") with
  | some g => Except.ok g
  | none => Except.error PyErr.keyError

/-- C5 counterexample to the claim as stated: the text `"{}"` is valid
JSON, so the Planning Step neither raises nor returns an object with keys
`goal` and `queries` — it silently returns the empty plan. -/
theorem c5_counterexample :
    get_goal_and_queries ("\x7b\x7d") = Except.ok (JsonV.obj []) ∧
    specPlanSchema (JsonV.obj []) = false := by
  constructor
  · rfl
  · rfl

/-- C5 (amended): the Planning Step returns whatever value the JSON parse
produces, with no schema validation — so a valid-JSON text is returned as
the plan even when it lacks the `goal`/`queries` shape — and raises a
fatal uncaught error exactly when the text is not valid JSON. -/
theorem c5_planning_parse_amended (respText : String) :
    (∀ v, json_loads respText = some v → get_goal_and_queries respText = Except.ok v) ∧
    (json_loads respText = none →
       get_goal_and_queries respText = Except.error PyErr.jsonDecodeError) ∧
    (get_goal_and_queries ("not json") = Except.error PyErr.jsonDecodeError) ∧
    (get_goal_and_queries ("\x7b\x7d") = Except.ok (JsonV.obj []) ∧
       specPlanSchema (JsonV.obj []) = false) := by
  refine ⟨?_, ?_, rfl, rfl, rfl⟩
  · intro v h
    rw [get_goal_and_queries, h]
  · intro h
    rw [get_goal_and_queries, h]

/-- C5 witness: the amended theorem applied to a concrete well-formed
planning response, whose parsed object it returns unchanged. -/
theorem c5_planning_parse_amended_witness :
    get_goal_and_queries ("\x7b\"goal\": \"g\", \"queries\": [\"q1\"]\x7d") =
      Except.ok (JsonV.obj [("goal", JsonV.str ("g")),
        ("queries", JsonV.arr [JsonV.str ("q1")])]) :=
  (c5_planning_parse_amended ("\x7b\"goal\": \"g\", \"queries\": [\"q1\"]\x7d")).1
    (JsonV.obj [("goal", JsonV.str ("g")), ("queries", JsonV.arr [JsonV.str ("q1")])]) rfl

/-- C9: for any text that parses as JSON the Planning Step returns the
parsed value with no schema validation; in particular `"{}"` parses, the
step returns the keyless empty object successfully, that object fails the
spec's plan schema, and only the caller's later `plan["goal"]` access
(line 188) raises. -/
theorem c9_no_schema_validation (respText : String) (v : JsonV) :
    (json_loads respText = some v → get_goal_and_queries respText = Except.ok v) ∧
    (get_goal_and_queries ("\x7b\x7d") = Except.ok (JsonV.obj []) ∧
       specPlanSchema (JsonV.obj []) = false ∧
       planGoalAccess (JsonV.obj []) = Except.error PyErr.keyError) := by
  refine ⟨?_, rfl, rfl, rfl⟩
  intro h
  rw [get_goal_and_queries, h]

/-- C9 witness: the theorem applied to the concrete keyless text `"{}"`. -/
theorem c9_no_schema_validation_witness :
    get_goal_and_queries ("\x7b\x7d") = Except.ok (JsonV.obj []) :=
  (c9_no_schema_validation ("\x7b\x7d") (JsonV.obj [])).1 rfl

/-- Python `str.startswith(pre)`. -/
def pyStartsWith (s pre : String) : Bool := s.data.take pre.data.length == pre.data

/-- Python `str.strip()`: whitespace removed from both ends. -/
def pyStrip (s : String) : String :=
  ⟨((s.data.dropWhile Char.isWhitespace).reverse.dropWhile Char.isWhitespace).reverse⟩

/-- Python `s.split('=', 1)[1]` under the guard that `'='` occurs in `s`:
everything after the first `'='`. -/
def afterFirstEq (s : String) : String :=
  ⟨(s.data.dropWhile fun c => !(c == '=')).drop 1⟩

/-- Python truthiness of an optional string: `None` and `""` are falsy. -/
def truthyStr : Option String → Bool
  | none => false
  | some s => !(s.data.isEmpty)

/-- The `.env` scan of `set_api_key_env` (src/app.py lines 28-32): the
first line starting with `OPENAI_API_KEY=` wins (the loop breaks there);
its stripped text after the first `=` is the value. -/
def findDotenvValue : List String → Option String
  | [] => none
  | line :: rest =>
    if pyStartsWith line ("OPENAI_API_KEY=") then some (afterFirstEq (pyStrip line))
    else findDotenvValue rest

/-- The credential sources visible to `set_api_key_env`: the Streamlit
secrets value for `openai_api_key` (none when the store is missing or the
key absent), the `OPENAI_API_KEY` environment variable, and the `.env`
file (existence plus its lines). -/
structure PyEnv where
  secrets : Option String
  envVar : Option String
  dotenvExists : Bool
  dotenvLines : List String

/-- `set_api_key_env` (src/app.py lines 15-35): secrets first; if that is
falsy, the environment variable; if that is still falsy and `.env`
exists, the first matching `.env` line; the final value (possibly `None`
or empty) is returned. -/
def set_api_key_env (e : PyEnv) : Option String :=
  let k2 : Option String := if truthyStr e.secrets then e.secrets else e.envVar
  if truthyStr k2 then k2
  else if e.dotenvExists then
    match findDotenvValue e.dotenvLines with
    | some v => some v
    | none => k2
  else k2

/-- Startup outcome of lines 149-154: a falsy key shows a user-visible
error and stops the script before `get_openai_client()` runs. -/
inductive StartupOutcome where
  | halted
  | clientReady
deriving DecidableEq

/-- The startup credential gate (src/app.py lines 149-154). -/
def startup (e : PyEnv) : StartupOutcome :=
  if truthyStr (set_api_key_env e) then StartupOutcome.clientReady else StartupOutcome.halted

/-- C7: the Credential Resolver prefers the secrets store, then the
environment variable, then the `.env` file's first matching line,
returning the first truthy (non-empty) stage value; and whenever the
resolved value is falsy under every stage, startup halts before the
Gateway client is created. -/
theorem c7_credential_order (e : PyEnv) :
    (truthyStr e.secrets = true → set_api_key_env e = e.secrets) ∧
    (truthyStr e.secrets = false → truthyStr e.envVar = true →
       set_api_key_env e = e.envVar) ∧
    (truthyStr e.secrets = false → truthyStr e.envVar = false → e.dotenvExists = true →
       ∀ v, findDotenvValue e.dotenvLines = some v → set_api_key_env e = some v) ∧
    (truthyStr e.secrets = false → truthyStr e.envVar = false →
       (e.dotenvExists = false ∨ findDotenvValue e.dotenvLines = none ∨
         findDotenvValue e.dotenvLines = some ("")) →
       startup e = StartupOutcome.halted) := by
  refine ⟨?_, ?_, ?_, ?_⟩
  · intro h
    simp [set_api_key_env, h]
  · intro h1 h2
    simp [set_api_key_env, h1, h2]
  · intro h1 h2 h3 v h4
    simp [set_api_key_env, h1, h2, h3, h4]
  · intro h1 h2 h3
    have hts : truthyStr (some ("")) = false := rfl
    rcases h3 with h3 | h3 | h3 <;> cases hd : e.dotenvExists <;>
      simp_all [startup, set_api_key_env]

/-- C7 witness: an empty-string secrets value is skipped and the non-empty
environment variable wins. -/
theorem c7_credential_order_witness :
    set_api_key_env ⟨some (""), some ("sk-key"), false, []⟩ = some ("sk-key") :=
  (c7_credential_order ⟨some (""), some ("sk-key"), false, []⟩).2.1 rfl rfl

/-- C10: when the first `.env` line starting with `OPENAI_API_KEY=`
carries an empty value, the scan breaks there and returns the empty
string, which is falsy, so startup halts — even when a later line holds a
non-empty value. -/
theorem c10_dotenv_first_match (pre post : List String) (line : String)
    (hpre : ∀ l ∈ pre, pyStartsWith l ("OPENAI_API_KEY=") = false)
    (hline : pyStartsWith line ("OPENAI_API_KEY=") = true)
    (hval : afterFirstEq (pyStrip line) = "") :
    set_api_key_env ⟨none, none, true, pre ++ line :: post⟩ = some ("") ∧
    startup ⟨none, none, true, pre ++ line :: post⟩ = StartupOutcome.halted := by
  have hfind : ∀ pre2 : List String,
      (∀ l ∈ pre2, pyStartsWith l ("OPENAI_API_KEY=") = false) →
      findDotenvValue (pre2 ++ line :: post) = some ("") := by
    intro pre2
    induction pre2 with
    | nil => intro _; simp [findDotenvValue, hline, hval]
    | cons p ps ih =>
      intro hp
      have hh := hp p (List.mem_cons_self p ps)
      have ht : ∀ l ∈ ps, pyStartsWith l ("OPENAI_API_KEY=") = false :=
        fun l hl => hp l (List.mem_cons_of_mem p hl)
      simp [findDotenvValue, hh, ih ht]
  have hf := hfind pre hpre
  constructor
  · simp [set_api_key_env, truthyStr, hf]
  · simp [startup, set_api_key_env, truthyStr, hf]

/-- C10 witness: a non-matching first line, then `OPENAI_API_KEY=` with an
empty value, then a line holding a real key — the app still halts. -/
theorem c10_dotenv_first_match_witness :
    set_api_key_env ⟨none, none, true,
        ["OTHER=x\n", "OPENAI_API_KEY=\n", "OPENAI_API_KEY=realkey\n"]⟩ = some ("") ∧
    startup ⟨none, none, true,
        ["OTHER=x\n", "OPENAI_API_KEY=\n", "OPENAI_API_KEY=realkey\n"]⟩ =
      StartupOutcome.halted :=
  c10_dotenv_first_match (["OTHER=x\n"]) (["OPENAI_API_KEY=realkey\n"])
    ("OPENAI_API_KEY=\n") (by decide) (by decide) (by decide)

/-- Python `text.split("\n")` on the underlying characters: split at every
newline, keeping empty pieces. -/
def splitLinesList : List Char → List (List Char)
  | [] => [[]]
  | c :: rest =>
    let r := splitLinesList rest
    if c == '\n' then [] :: r
    else
      match r with
      | h :: t => (c :: h) :: t
      | [] => [[c]]

/-- `get_clarifying_questions` (src/app.py lines 43-56) restricted to its
response handling (line 55): the response text split on newlines is the
question list. -/
def get_clarifying_questions (respText : String) : List String :=
  (splitLinesList respText.data).map String.mk

example : get_clarifying_questions ("q1\nq2\nq3") = ["q1", "q2", "q3"] := by rfl

example : get_clarifying_questions ("") = [""] := by rfl

/-- The answer inputs of the UI loop (src/app.py lines 180-183): one
`st.text_input` per enumerated question, keyed `answer_{i}`, collected in
order; `sess i` is the session-state value of slot `i`. -/
def answerSlots (questions : List String) (sess : Nat → String) : List String :=
  (List.range questions.length).map sess

/-- The planning gate (src/app.py line 184): `if all(answers):` — Python
truthiness, so every answer must be a non-empty string. -/
def planningInvoked (answers : List String) : Bool :=
  answers.all fun a => !(a.data.isEmpty)

/-- C8: the UI presents exactly one answer slot per question line returned
by the Clarification Step, and the Planning Step is gated on every slot
holding a non-empty string. -/
theorem c8_clarification_slots (respText : String) (sess : Nat → String) :
    (answerSlots (get_clarifying_questions respText) sess).length =
      (get_clarifying_questions respText).length ∧
    (planningInvoked (answerSlots (get_clarifying_questions respText) sess) = true ↔
       ∀ i < (get_clarifying_questions respText).length, sess i ≠ "") := by
  constructor
  · simp [answerSlots]
  · simp only [planningInvoked, answerSlots, List.all_eq_true]
    constructor
    · intro h i hi hemp
      have hm := h (sess i) (List.mem_map_of_mem sess (List.mem_range.mpr hi))
      rw [hemp] at hm
      simp at hm
    · intro h a ha
      obtain ⟨i, hi, rfl⟩ := List.mem_map.mp ha
      have hne := h i (List.mem_range.mp hi)
      cases hsd : (sess i).data with
      | nil => exact absurd (String.ext hsd) hne
      | cons c cs => simp [hsd]

/-- C8 witness: two question lines, both slots filled — the gate opens. -/
theorem c8_clarification_slots_witness :
    planningInvoked (answerSlots (get_clarifying_questions ("q1\nq2")) fun _ => ("a")) =
      true :=
  (c8_clarification_slots ("q1\nq2") fun _ => ("a")).2.mpr fun i _ => by decide
